import Mathlib

/-!
Verification of the streamshort authentication, token and content-authorization
core against its natural-language specification.

The definitions below are a shallow embedding of the Go source:

* `handlers/auth.go` — phone-OTP issuance/verification (`VerifyOTP`), the
  refresh-token rotation endpoint (`RefreshTokenCall`), and access-token
  generation (`generateAccessToken`).
* `internal/auth/handler.go` — the email/password variant's token service
  (`generateTokensInternal`, `VerifyToken`).
* the gorilla/mux middleware (`authMiddlewareVerify`).
* the content handlers — series/episode ownership resolution and status /
  episode-number validation (`UpdateSeries`, `UpdateEpisodeStatus`,
  `UpdateSeriesStatus`, `CreateEpisode`, `UpdateEpisode`).

Database state is a record of lists, one per table, in primary-key insertion
order; GORM `First` with a `Where` clause is `List.find?`, GORM `Updates`
keyed by primary key is a `List.map` guarded on the row id, and GORM row
counts are `List.countP`.  JWT signing is modelled with an ideal MAC: the
`Sig.mac` constructor is injective in (algorithm, key, payload), so two
different payloads never share a signature — the idealization of an
unforgeable HMAC.  Times are `Int` epoch seconds; fresh UUIDs and fallible
store/crypto steps are explicit parameters.
-/

namespace Streamshort

/-- Row of the users table (`models/user.go`, UUID-keyed variant). -/
structure User where
  id : String
  phone : String
deriving Repr, DecidableEq

/-- Row of the otp_transactions table (`models/user.go`). -/
structure OTPTransaction where
  id : String
  txnID : String
  phone : String
  otp : String
  expiresAt : Int
  used : Bool
deriving Repr, DecidableEq

/-- Row of the refresh_tokens table (`models/user.go`). -/
structure RefreshTokenRec where
  id : String
  token : String
  userID : String
  expiresAt : Int
  revoked : Bool
deriving Repr, DecidableEq

/-- Row of the creator_profiles table (ownership anchor for series). -/
structure CreatorProfile where
  id : String
  userID : String
deriving Repr, DecidableEq

/-- Row of the series table (`models` content schema). -/
structure Series where
  id : String
  creatorID : String
  title : String
  synopsis : String
  language : String
  categoryTags : List String
  priceType : String
  priceAmount : Option Rat
  thumbnailURL : Option String
  status : String
deriving Repr, DecidableEq

/-- Row of the episodes table. -/
structure Episode where
  id : String
  seriesID : String
  title : String
  episodeNumber : Int
  durationSeconds : Int
  status : String
  publishedAt : Option Int
  thumbURL : Option String
deriving Repr, DecidableEq

/-- The relational store: one list per table, in primary-key order. -/
structure DB where
  otps : List OTPTransaction
  users : List User
  refreshTokens : List RefreshTokenRec
  profiles : List CreatorProfile
  series : List Series
  episodes : List Episode
deriving Repr, DecidableEq

/-- JWT signing algorithms distinguished by the source. -/
inductive Alg where
  | HS256
  | HS384
  | HS512
  | RS256
  | noAlg
deriving Repr, DecidableEq

/-- Whether the algorithm is in the HMAC family: the type assertion
`token.Method.(*jwt.SigningMethodHMAC)` in `Service.VerifyToken` succeeds
exactly for HS256/HS384/HS512. -/
def Alg.isHMAC : Alg → Bool
  | .HS256 => true
  | .HS384 => true
  | .HS512 => true
  | _ => false

/-- JWT claim set.  The phone variant (`handlers.Claims`) populates
`userID`/`phone`; the email variant (`internal/auth` `Claims`) populates
`userID`/`email`/`role`.  Registered claims exp/iat/nbf are epoch seconds. -/
structure TokenClaims where
  userID : String
  phone : Option String
  email : Option String
  role : Option String
  exp : Int
  iat : Int
  nbf : Int
deriving Repr, DecidableEq

/-- Idealized JWT signature values.  `Sig.mac alg key payload` is the HMAC of
the encoded payload under `key` with algorithm `alg`; constructor injectivity
models unforgeability (distinct payloads or keys give distinct MACs).
`Sig.other` covers arbitrary attacker-chosen byte strings. -/
inductive Sig where
  | mac (alg : Alg) (key : String) (payload : TokenClaims)
  | rsa (key : String) (payload : TokenClaims)
  | noneSig
  | other (tag : Nat)
deriving Repr, DecidableEq

/-- A serialized JWT: asserted header algorithm, payload, signature part. -/
structure SignedToken where
  alg : Alg
  claims : TokenClaims
  sig : Sig
deriving Repr, DecidableEq

/-- The hardcoded process-wide signing secret (`handlers/auth.go` const
`JWTSecret`, returned by `GetJWTSecret` for the middleware). -/
def jwtSecret : String := "your-secret-key-change-in-production"

/-- `OTPExpiration = 5 * time.Minute`, in seconds. -/
def otpExpiration : Int := 300

/-- `TokenExpiration = 1 * time.Hour`, in seconds. -/
def tokenExpiration : Int := 3600

/-- `RefreshTokenExpiration = 7 * 24 * time.Hour`, in seconds. -/
def refreshTokenExpiration : Int := 604800

/-- The body of the 200 response of the token endpoints. -/
structure TokenResponse where
  accessToken : SignedToken
  refreshToken : String
  expiresIn : Int
deriving Repr, DecidableEq

/-- Observable HTTP responses of the embedded handlers: `fail` is
`http.Error(w, body, status)`; the others are the JSON success bodies. -/
inductive HResp where
  | fail (status : Nat) (body : String)
  | tokens (resp : TokenResponse)
  | message (status : Nat) (body : String)
  | createdEpisode (e : Episode)
deriving Repr, DecidableEq

/-- The OTP lookup of `AuthHandler.VerifyOTP`:
`Where("phone = ? AND otp = ? AND used = ?", req.Phone, req.OTP, false).First`.
`First` without an explicit order returns the first row in primary-key order.
Note the query has no condition on `expires_at`. -/
def findOTP (db : DB) (phone otpCode : String) : Option OTPTransaction :=
  db.otps.find? (fun t => t.phone == phone && t.otp == otpCode && t.used == false)

/-- The mark-used write `h.db.Model(&otpTx).Update("used", true)`:
`UPDATE otp_transactions SET used = true WHERE id = ?` — keyed by primary key
only, with no condition on the current value of `used`.  Returns the updated
store and the number of rows matched (GORM `RowsAffected`). -/
def markOTPUsed (db : DB) (rowID : String) : DB × Nat :=
  ({ db with otps := db.otps.map (fun t => if t.id == rowID then { t with used := true } else t) },
   db.otps.countP (fun t => t.id == rowID))

/-- The revoke write `h.db.Model(&refreshToken).Update("revoked", true)`:
`UPDATE refresh_tokens SET revoked = true WHERE id = ?` — keyed by primary key
only, with no condition on the current value of `revoked`. -/
def revokeRefreshToken (db : DB) (rowID : String) : DB × Nat :=
  ({ db with refreshTokens := db.refreshTokens.map (fun t => if t.id == rowID then { t with revoked := true } else t) },
   db.refreshTokens.countP (fun t => t.id == rowID))

/-- The compare-and-set variant of the mark-used write.
Modelled from the spec: "the mark used update must be a conditional write
(only succeeds transitioning false→true)" — i.e.
`UPDATE otp_transactions SET used = true WHERE id = ? AND used = false`.
This definition follows the spec words and exists only to be compared with
`markOTPUsed`, the write the source actually issues. -/
def markOTPUsedCAS (db : DB) (rowID : String) : DB × Nat :=
  ({ db with otps := db.otps.map (fun t => if t.id == rowID && t.used == false then { t with used := true } else t) },
   db.otps.countP (fun t => t.id == rowID && t.used == false))

/-- The compare-and-set variant of the revoke write.
Modelled from the spec: "RefreshToken rotate must be a single conditional
update (compare-and-set semantics at the storage layer)" — i.e.
`UPDATE refresh_tokens SET revoked = true WHERE id = ? AND revoked = false`.
Exists only to be compared with `revokeRefreshToken`. -/
def revokeRefreshTokenCAS (db : DB) (rowID : String) : DB × Nat :=
  ({ db with refreshTokens := db.refreshTokens.map (fun t => if t.id == rowID && t.revoked == false then { t with revoked := true } else t) },
   db.refreshTokens.countP (fun t => t.id == rowID && t.revoked == false))

/-- `AuthHandler.generateAccessToken`: claims are
`{UserID, Phone, ExpiresAt: now+1h, IssuedAt: now, NotBefore: now}` — no role
and no email — signed HS256 with the process-wide `jwtSecret`. -/
def generateAccessToken (user : User) (now : Int) : SignedToken :=
  let c : TokenClaims :=
    { userID := user.id, phone := some user.phone, email := none, role := none,
      exp := now + tokenExpiration, iat := now, nbf := now }
  { alg := .HS256, claims := c, sig := .mac .HS256 jwtSecret c }

/-- The stored-refresh-token lookup of `AuthHandler.RefreshToken`:
`Where("token = ? AND revoked = ? AND expires_at > ?", tok, false, now).First`. -/
def findRefreshToken (db : DB) (tok : String) (now : Int) : Option RefreshTokenRec :=
  db.refreshTokens.find? (fun t => t.token == tok && t.revoked == false && now < t.expiresAt)

/-- `AuthHandler.VerifyOTP` after JSON decoding.  `newUserID`, `newRefreshID`
and `newRefreshTok` are the fresh UUID values drawn during the call; the three
Boolean flags expose the fallible store/crypto steps (user insert, access
token signing, refresh token insert), `true` meaning the step succeeds. -/
def VerifyOTP (db : DB) (phone otpCode : String) (now : Int)
    (newUserID newRefreshID newRefreshTok : String)
    (createUserOk accessOk refreshOk : Bool) : HResp × DB :=
  if phone = "" ∨ otpCode = "" then
    (.fail 400 "Phone and OTP are required", db)
  else
    match findOTP db phone otpCode with
    | none => (.fail 401 "Invalid OTP", db)
    | some tx =>
      let db₁ := (markOTPUsed db tx.id).1
      match db₁.users.find? (fun u => u.phone == phone) with
      | some user =>
        if accessOk = false then (.fail 500 "Failed to generate access token", db₁)
        else if refreshOk = false then (.fail 500 "Failed to generate refresh token", db₁)
        else
          let db₂ := { db₁ with refreshTokens := db₁.refreshTokens ++
            [{ id := newRefreshID, token := newRefreshTok, userID := user.id,
               expiresAt := now + refreshTokenExpiration, revoked := false }] }
          (.tokens { accessToken := generateAccessToken user now,
                     refreshToken := newRefreshTok, expiresIn := tokenExpiration }, db₂)
      | none =>
        if createUserOk = false then (.fail 500 "Failed to create user", db₁)
        else
          let user : User := { id := newUserID, phone := phone }
          let db₂ := { db₁ with users := db₁.users ++ [user] }
          if accessOk = false then (.fail 500 "Failed to generate access token", db₂)
          else if refreshOk = false then (.fail 500 "Failed to generate refresh token", db₂)
          else
            let db₃ := { db₂ with refreshTokens := db₂.refreshTokens ++
              [{ id := newRefreshID, token := newRefreshTok, userID := user.id,
                 expiresAt := now + refreshTokenExpiration, revoked := false }] }
            (.tokens { accessToken := generateAccessToken user now,
                       refreshToken := newRefreshTok, expiresIn := tokenExpiration }, db₃)

/-- `AuthHandler.RefreshToken` after JSON decoding.  Lookup, user load, new
access token, new persisted refresh token, and only then the revoke of the
presented token.  `accessOk`/`refreshOk` expose the fallible signing/insert
steps as in `VerifyOTP`. -/
def RefreshTokenCall (db : DB) (tok : String) (now : Int)
    (newRefreshID newRefreshTok : String) (accessOk refreshOk : Bool) : HResp × DB :=
  if tok = "" then (.fail 400 "Refresh token is required", db)
  else
    match findRefreshToken db tok now with
    | none => (.fail 401 "Invalid refresh token", db)
    | some rt =>
      match db.users.find? (fun u => u.id == rt.userID) with
      | none => (.fail 401 "User not found", db)
      | some user =>
        if accessOk = false then (.fail 500 "Failed to generate access token", db)
        else if refreshOk = false then (.fail 500 "Failed to generate refresh token", db)
        else
          let db₁ := { db with refreshTokens := db.refreshTokens ++
            [{ id := newRefreshID, token := newRefreshTok, userID := user.id,
               expiresAt := now + refreshTokenExpiration, revoked := false }] }
          let db₂ := (revokeRefreshToken db₁ rt.id).1
          (.tokens { accessToken := generateAccessToken user now,
                     refreshToken := newRefreshTok, expiresIn := tokenExpiration }, db₂)

/-- Configuration of the internal (email/password) auth service. -/
structure AuthConfig where
  jwtSecret : String
  accessTokenExpiry : Int
  refreshTokenExpiry : Int
deriving Repr, DecidableEq

/-- User row of the internal schema, as far as token claims observe it. -/
structure InternalUser where
  id : String
  email : String
  role : String
deriving Repr, DecidableEq

/-- Access-token half of `Service.generateTokens`: claims
`{UserID, Email, Role, exp: now+cfg.AccessTokenExpiry, iat: now, nbf: now}`
signed HS256 with the configured secret. -/
def generateTokensInternal (cfg : AuthConfig) (user : InternalUser) (now : Int) : SignedToken :=
  let c : TokenClaims :=
    { userID := user.id, phone := none, email := some user.email, role := some user.role,
      exp := now + cfg.accessTokenExpiry, iat := now, nbf := now }
  { alg := .HS256, claims := c, sig := .mac .HS256 cfg.jwtSecret c }

/-- `Service.VerifyToken`: `jwt.ParseWithClaims` whose keyfunc rejects any
method that is not `*jwt.SigningMethodHMAC` and otherwise returns the
configured secret.  The library then verifies the MAC under the asserted
algorithm and validates the registered claims (valid iff `nbf ≤ now < exp`).
`none` is the parse/verification error, surfaced to callers as a 401
"Invalid token". -/
def VerifyToken (cfg : AuthConfig) (now : Int) (t : SignedToken) : Option TokenClaims :=
  if t.alg.isHMAC = false then none
  else if t.sig = Sig.mac t.alg cfg.jwtSecret t.claims then
    if t.claims.nbf ≤ now ∧ now < t.claims.exp then some t.claims else none
  else none

/-- The request-gate verification (`middleware.AuthMiddleware`):
`jwt.ParseWithClaims` with a keyfunc that returns `[]byte(GetJWTSecret())`
for every method.  The library still fails for RSA methods (key type
mismatch) and for alg "none" (requires the explicit unsafe marker), so only
HMAC-family tokens whose MAC under `jwtSecret` matches can validate. -/
def authMiddlewareVerify (now : Int) (t : SignedToken) : Option TokenClaims :=
  if t.alg.isHMAC = false then none
  else if t.sig = Sig.mac t.alg jwtSecret t.claims then
    if t.claims.nbf ≤ now ∧ now < t.claims.exp then some t.claims else none
  else none

/-- Series-ownership resolution used by the mutating series handlers:
`JOIN creator_profiles ON series.creator_id = creator_profiles.id` filtered on
`series.id = ? AND creator_profiles.user_id = ?`, first row or not-found. -/
def findOwnedSeries (db : DB) (seriesID userID : String) : Option Series :=
  db.series.find? (fun s => s.id == seriesID &&
    db.profiles.any (fun cp => cp.id == s.creatorID && cp.userID == userID))

/-- Episode-ownership resolution: episode → series → creator profile → user. -/
def findOwnedEpisode (db : DB) (episodeID userID : String) : Option Episode :=
  db.episodes.find? (fun e => e.id == episodeID &&
    db.series.any (fun s => s.id == e.seriesID &&
      db.profiles.any (fun cp => cp.id == s.creatorID && cp.userID == userID)))

/-- Body of `UpdateSeriesRequest`; every field optional, including `status`. -/
structure UpdateSeriesRequest where
  title : Option String
  synopsis : Option String
  language : Option String
  categoryTags : Option (List String)
  priceType : Option String
  priceAmount : Option Rat
  thumbnailURL : Option String
  status : Option String
deriving Repr, DecidableEq

/-- The column assignments built by `ContentHandler.UpdateSeries`: each
provided field is copied into the row; `status` is copied with no
validation. -/
def applySeriesUpdates (s : Series) (req : UpdateSeriesRequest) : Series :=
  let s := match req.title with | some v => { s with title := v } | none => s
  let s := match req.synopsis with | some v => { s with synopsis := v } | none => s
  let s := match req.language with | some v => { s with language := v } | none => s
  let s := match req.categoryTags with | some v => { s with categoryTags := v } | none => s
  let s := match req.priceType with | some v => { s with priceType := v } | none => s
  let s := match req.priceAmount with | some v => { s with priceAmount := some v } | none => s
  let s := match req.thumbnailURL with | some v => { s with thumbnailURL := some v } | none => s
  match req.status with | some v => { s with status := v } | none => s

/-- `ContentHandler.UpdateSeries` (handlers variant) after JSON decoding:
ownership lookup conflating not-found and not-owned into one 404, then an
unvalidated field update keyed by the series primary key. -/
def UpdateSeries (db : DB) (seriesID userID : String) (req : UpdateSeriesRequest) : HResp × DB :=
  match findOwnedSeries db seriesID userID with
  | none => (.fail 404 "Series not found or access denied", db)
  | some s =>
    let db₁ := { db with series := db.series.map (fun t =>
      if t.id == s.id then applySeriesUpdates t req else t) }
    (.message 200 "Series updated successfully", db₁)

/-- ASCII lowercasing, modelling `strings.ToLower` on the ASCII status
strings the handlers compare against. -/
def lowerString (s : String) : String :=
  String.mk (s.data.map Char.toLower)

/-- Status normalization shared by the two dedicated status endpoints:
`strings.ToLower` then the alias `publish` → `published`. -/
def normalizeStatus (s : String) : String :=
  let lower := lowerString s
  if lower = "publish" then "published" else lower

/-- The episode-status allow-list map literal in `UpdateEpisodeStatus`. -/
def episodeStatusAllowed (s : String) : Bool :=
  s == "pending_upload" || s == "queued_transcode" || s == "ready" || s == "published"

/-- The series-status allow-list map literal in `UpdateSeriesStatus`. -/
def seriesStatusAllowed (s : String) : Bool :=
  s == "draft" || s == "published"

/-- `ContentHandler.UpdateEpisodeStatus`: ownership first, then the required
`status` field, normalization, allow-list check, and the keyed update that
also stamps `published_at` when the new status is `published`. -/
def UpdateEpisodeStatus (db : DB) (episodeID userID reqStatus : String) (now : Int) : HResp × DB :=
  match findOwnedEpisode db episodeID userID with
  | none => (.fail 404 "Episode not found or access denied", db)
  | some ep =>
    if reqStatus = "" then (.fail 400 "status is required", db)
    else
      let status := normalizeStatus reqStatus
      if episodeStatusAllowed status = false then (.fail 400 "invalid status", db)
      else
        let db₁ := { db with episodes := db.episodes.map (fun e =>
          if e.id == ep.id then
            { e with status := status,
                     publishedAt := if status = "published" then some now else e.publishedAt }
          else e) }
        (.message 200 "Episode status updated successfully", db₁)

/-- `ContentHandler.UpdateSeriesStatus`: same shape as the episode endpoint
with the series allow-list; no `published_at` stamp exists on series. -/
def UpdateSeriesStatus (db : DB) (seriesID userID reqStatus : String) : HResp × DB :=
  match findOwnedSeries db seriesID userID with
  | none => (.fail 404 "Series not found or access denied", db)
  | some s =>
    if reqStatus = "" then (.fail 400 "status is required", db)
    else
      let status := normalizeStatus reqStatus
      if seriesStatusAllowed status = false then (.fail 400 "invalid status", db)
      else
        let db₁ := { db with series := db.series.map (fun t =>
          if t.id == s.id then { t with status := status } else t) }
        (.message 200 "Series status updated successfully", db₁)

/-- Body of `CreateEpisodeRequest`. -/
structure CreateEpisodeRequest where
  title : String
  episodeNumber : Int
  durationSeconds : Int
deriving Repr, DecidableEq

/-- `ContentHandler.CreateEpisode`: field validation, ownership, then the
duplicate-number probe `Where("series_id = ? AND episode_number = ?").First`
— a hit is a 409 conflict and nothing is created; otherwise the new episode
row is inserted with status `pending_upload`. -/
def CreateEpisode (db : DB) (seriesID userID : String) (req : CreateEpisodeRequest)
    (newEpisodeID : String) : HResp × DB :=
  if req.title = "" ∨ req.episodeNumber ≤ 0 ∨ req.durationSeconds ≤ 0 then
    (.fail 400 "Title, episode number, and duration are required", db)
  else
    match findOwnedSeries db seriesID userID with
    | none => (.fail 404 "Series not found or access denied", db)
    | some _ =>
      match db.episodes.find? (fun e => e.seriesID == seriesID && e.episodeNumber == req.episodeNumber) with
      | some _ => (.fail 409 "Episode number already exists for this series", db)
      | none =>
        let ep : Episode :=
          { id := newEpisodeID, seriesID := seriesID, title := req.title,
            episodeNumber := req.episodeNumber, durationSeconds := req.durationSeconds,
            status := "pending_upload", publishedAt := none, thumbURL := none }
        (.createdEpisode ep, { db with episodes := db.episodes ++ [ep] })

/-- Body of `UpdateEpisodeRequest`. -/
structure UpdateEpisodeRequest where
  title : Option String
  episodeNumber : Option Int
  durationSeconds : Option Int
deriving Repr, DecidableEq

/-- The duplicate-number count of `UpdateEpisode`:
`Where("series_id = ? AND episode_number = ? AND id <> ?").Count` — the row
being updated is excluded. -/
def countOtherEpisodes (db : DB) (ep : Episode) (n : Int) : Nat :=
  db.episodes.countP (fun e => e.seriesID == ep.seriesID && e.episodeNumber == n && e.id != ep.id)

/-- The column assignments applied by `UpdateEpisode` once validated. -/
def applyEpisodeUpdates (e : Episode) (req : UpdateEpisodeRequest) : Episode :=
  let e := match req.title with | some v => { e with title := v } | none => e
  let e := match req.durationSeconds with | some v => { e with durationSeconds := v } | none => e
  match req.episodeNumber with | some v => { e with episodeNumber := v } | none => e

/-- Third stage of `UpdateEpisode`: reject an empty update map, otherwise
apply the keyed update. -/
def updateEpisodeApply (db : DB) (ep : Episode) (req : UpdateEpisodeRequest) : HResp × DB :=
  if req.title = none ∧ req.durationSeconds = none ∧ req.episodeNumber = none then
    (.fail 400 "No fields to update", db)
  else
    let db₁ := { db with episodes := db.episodes.map (fun e =>
      if e.id == ep.id then applyEpisodeUpdates e req else e) }
    (.message 200 "Episode updated successfully", db₁)

/-- Second stage of `UpdateEpisode`: the episode-number validation — positive
and unique within the series among the other rows. -/
def updateEpisodeNumberCheck (db : DB) (ep : Episode) (req : UpdateEpisodeRequest) : HResp × DB :=
  match req.episodeNumber with
  | some n =>
    if n ≤ 0 then (.fail 400 "episode_number must be > 0", db)
    else if 0 < countOtherEpisodes db ep n then
      (.fail 409 "Episode number already exists for this series", db)
    else updateEpisodeApply db ep req
  | none => updateEpisodeApply db ep req

/-- `ContentHandler.UpdateEpisode`: ownership, duration validation, then the
number validation and the update. -/
def UpdateEpisode (db : DB) (episodeID userID : String) (req : UpdateEpisodeRequest) : HResp × DB :=
  match findOwnedEpisode db episodeID userID with
  | none => (.fail 404 "Episode not found or access denied", db)
  | some ep =>
    match req.durationSeconds with
    | some d =>
      if d ≤ 0 then (.fail 400 "duration_seconds must be > 0", db)
      else updateEpisodeNumberCheck db ep req
    | none => updateEpisodeNumberCheck db ep req

/-- Whether a handler response is the token-pair success body. -/
def HResp.isTokens : HResp → Bool
  | .tokens _ => true
  | _ => false

/-- The all-absent series-update request body. -/
def req0 : UpdateSeriesRequest :=
  { title := none, synopsis := none, language := none, categoryTags := none,
    priceType := none, priceAmount := none, thumbnailURL := none, status := none }

/-- The empty store. -/
def emptyDB : DB :=
  { otps := [], users := [], refreshTokens := [], profiles := [], series := [], episodes := [] }

/-- An unused OTP transaction whose expiry (epoch second 100) has passed at
the call times used below. -/
def expiredOtpRow : OTPTransaction :=
  { id := "o1", txnID := "otp_txn_1", phone := "+15550001111", otp := "123456",
    expiresAt := 100, used := false }

/-- Store holding only `expiredOtpRow`. -/
def expiredOtpDB : DB := { emptyDB with otps := [expiredOtpRow] }

/-- An already-consumed OTP transaction. -/
def usedOtpRow : OTPTransaction :=
  { id := "o1", txnID := "otp_txn_1", phone := "+15550001111", otp := "123456",
    expiresAt := 1000, used := true }

/-- An already-revoked refresh token row. -/
def revokedRtRow : RefreshTokenRec :=
  { id := "r1", token := "rfrsh_old", userID := "user-1", expiresAt := 2000, revoked := true }

/-- Store whose OTP is already used and whose refresh token is already
revoked: the flags are already `true` before any update. -/
def consumedDB : DB := { emptyDB with otps := [usedOtpRow], refreshTokens := [revokedRtRow] }

/-- Store whose OTP and refresh-token flags are still `false`. -/
def freshFlagsDB : DB :=
  { emptyDB with
    otps := [{ usedOtpRow with used := false }],
    refreshTokens := [{ revokedRtRow with revoked := false }] }

/-- A configured internal auth service. -/
def cfg0 : AuthConfig := { jwtSecret := "secret0", accessTokenExpiry := 3600, refreshTokenExpiry := 604800 }

/-- A user row of the internal schema. -/
def iu0 : InternalUser := { id := "u1", email := "user@example.com", role := "user" }

/-- A claim set for the algorithm-confusion counterexample: expires at epoch
second 10, valid from 0. -/
def hs512Claims : TokenClaims :=
  { userID := "u1", phone := none, email := some "user@example.com", role := some "user",
    exp := 10, iat := 0, nbf := 0 }

/-- A token asserting HS512 whose signature is a correct HS512 MAC of its own
payload under the configured secret `"secret0"`. -/
def hs512Token : SignedToken :=
  { alg := .HS512, claims := hs512Claims, sig := .mac .HS512 "secret0" hs512Claims }

/-- A phone-variant user row. -/
def u0 : User := { id := "user-1", phone := "+15550001111" }

/-- A creator profile owned by `u0`. -/
def profileP1 : CreatorProfile := { id := "cp1", userID := "user-1" }

/-- A series owned by `profileP1`. -/
def seriesS1 : Series :=
  { id := "s1", creatorID := "cp1", title := "T", synopsis := "S", language := "en",
    categoryTags := [], priceType := "free", priceAmount := none, thumbnailURL := none,
    status := "draft" }

/-- An episode of `seriesS1` in state `ready`. -/
def episodeE1 : Episode :=
  { id := "e1", seriesID := "s1", title := "Ep", episodeNumber := 1, durationSeconds := 60,
    status := "ready", publishedAt := none, thumbURL := none }

/-- Content store: one creator, one series, one episode. -/
def contentDB : DB :=
  { emptyDB with profiles := [profileP1], series := [seriesS1], episodes := [episodeE1] }

/-- A second episode of `seriesS1`, numbered 2. -/
def episodeE2 : Episode :=
  { id := "e2", seriesID := "s1", title := "Ep2", episodeNumber := 2, durationSeconds := 60,
    status := "ready", publishedAt := none, thumbURL := none }

/-- A second series of the same creator, with no episodes. -/
def seriesS2 : Series :=
  { id := "s2", creatorID := "cp1", title := "T2", synopsis := "S2", language := "en",
    categoryTags := [], priceType := "free", priceAmount := none, thumbnailURL := none,
    status := "draft" }

/-- Content store with two series of one creator and two episodes of the
first series. -/
def contentDB2 : DB :=
  { emptyDB with
    profiles := [profileP1],
    series := [seriesS1, seriesS2],
    episodes := [episodeE1, episodeE2] }

/-- A live (unrevoked, unexpired at the times used below) refresh token of
`u0`. -/
def rtRowActive : RefreshTokenRec :=
  { id := "r1", token := "rfrsh_old", userID := "user-1", expiresAt := 2000, revoked := false }

/-- Store with one user holding one live refresh token. -/
def refreshDB : DB := { emptyDB with users := [u0], refreshTokens := [rtRowActive] }

/-- C1.  The spec requires `VerifyOTP` to reject a code whose every matching
transaction is used or expired; in particular an expired but otherwise-correct
code must fail with `InvalidOTP` (401).  The source query
`phone = ? AND otp = ? AND used = ?` has no `expires_at` condition, so the
unused transaction that expired at epoch second 100 still matches at second
1000 and the handler issues tokens.  The migration index
`idx_otp_transactions_phone_otp_used_expires (phone, otp, used, expires_at)`
and the advertised `expires_in` of the send endpoint show the expiry check
was intended: the code, not the claim, is wrong. -/
theorem verifyOTP_accepts_expired_code :
    expiredOtpRow.used = false ∧ expiredOtpRow.expiresAt ≤ 1000 ∧
    (VerifyOTP expiredOtpDB "+15550001111" "123456" 1000 "user-1" "rt-1" "rfrsh_1" true true true).1
      = HResp.tokens { accessToken := generateAccessToken u0 1000,
                       refreshToken := "rfrsh_1", expiresIn := 3600 } := by
  refine ⟨rfl, by decide, ?_⟩
  rfl

/-- C2 counterexample.  The token service signs with HS256, so HS256 is the
expected algorithm; `hs512Token` asserts HS512 — a different algorithm — yet
`Service.VerifyToken` returns its claims, because the keyfunc only checks that
the method is in the HMAC family.  The claim that every token asserting an
algorithm other than the expected one fails is therefore false. -/
theorem verifyToken_accepts_hs512 :
    (generateTokensInternal cfg0 iu0 0).alg = Alg.HS256 ∧
    hs512Token.alg ≠ Alg.HS256 ∧
    VerifyToken cfg0 5 hs512Token = some hs512Claims := by
  refine ⟨rfl, by decide, ?_⟩
  rfl

/-- C5 counterexample.  The claim says the OTP mark-used and refresh-token
revoke writes only succeed when transitioning the flag from false to true.
On a row whose flag is already `true`, the writes the source issues
(`UPDATE ... WHERE id = ?`) still match the row (`RowsAffected = 1`), whereas
the conditional compare-and-set writes the spec describes would match nothing
(`RowsAffected = 0`): the stored updates are not conditional. -/
theorem flagUpdates_not_conditional :
    usedOtpRow.used = true ∧
    (markOTPUsed consumedDB "o1").2 = 1 ∧
    (markOTPUsedCAS consumedDB "o1").2 = 0 ∧
    revokedRtRow.revoked = true ∧
    (revokeRefreshToken consumedDB "r1").2 = 1 ∧
    (revokeRefreshTokenCAS consumedDB "r1").2 = 0 := by
  decide

/-- C6 counterexample.  The claim says an episode status-update request naming
any value outside the allow-list `pending_upload`/`queued_transcode`/`ready`/
`published` fails with a 400.  The request value `"PUBLISH"` is outside that
list, yet the handler lowercases it, maps the alias `publish` to `published`,
accepts the request, and stores `published` (stamping `published_at`). -/
theorem updateEpisodeStatus_accepts_publish_alias :
    episodeStatusAllowed "PUBLISH" = false ∧
    (UpdateEpisodeStatus contentDB "e1" "user-1" "PUBLISH" 500).1
      = HResp.message 200 "Episode status updated successfully" ∧
    (UpdateEpisodeStatus contentDB "e1" "user-1" "PUBLISH" 500).2.episodes
      = [{ episodeE1 with status := "published", publishedAt := some 500 }] := by
  refine ⟨rfl, by decide, by decide⟩

/-- C9 counterexample.  The claim says the issued access token carries exactly
the claims user_id, phone/email, role, iat, nbf and exp = issuance + 1 hour.
The phone-variant token (`AuthHandler.generateAccessToken`) carries no role
claim at all, and the email-variant expiry is the configured duration, not a
fixed hour (here 7200 seconds). -/
theorem accessToken_lacks_role_claim :
    (generateAccessToken u0 0).claims.role = none ∧
    (generateTokensInternal
      { jwtSecret := "secret0", accessTokenExpiry := 7200, refreshTokenExpiry := 0 }
      iu0 0).claims.exp = 7200 := by
  exact ⟨rfl, rfl⟩

/-- C10.  Whenever the refresh endpoint returns anything other than a fresh
token pair — malformed request, unknown/revoked/expired token, missing user,
or a failed token-generation/persistence step — the store is returned exactly
as it was, so the presented refresh token is left unrevoked.  Revocation is
issued only on the success path, after both the new access token and the new
persisted refresh token exist. -/
theorem refresh_error_leaves_token_unrevoked
    (db : DB) (tok : String) (now : Int) (rid rtok : String) (aOk rOk : Bool)
    (herr : (RefreshTokenCall db tok now rid rtok aOk rOk).1.isTokens = false) :
    (RefreshTokenCall db tok now rid rtok aOk rOk).2 = db := by
  unfold RefreshTokenCall at herr ⊢
  by_cases h1 : tok = ""
  · simp [h1]
  · simp only [if_neg h1] at herr ⊢
    cases hf : findRefreshToken db tok now with
    | none => simp [hf]
    | some rt =>
      simp only [hf] at herr ⊢
      cases hu : db.users.find? (fun u => u.id == rt.userID) with
      | none => simp [hu]
      | some user =>
        simp only [hu] at herr ⊢
        by_cases ha : aOk = false
        · simp [ha]
        · by_cases hr : rOk = false
          · simp [ha, hr]
          · simp [ha, hr, HResp.isTokens] at herr

/-- C10 witness: an unknown refresh token fails and leaves the store
untouched. -/
theorem refresh_error_leaves_token_unrevoked_witness :
    (RefreshTokenCall emptyDB "rfrsh_x" 0 "r2" "rfrsh_y" true true).1.isTokens = false ∧
    (RefreshTokenCall emptyDB "rfrsh_x" 0 "r2" "rfrsh_y" true true).2 = emptyDB :=
  ⟨by decide, refresh_error_leaves_token_unrevoked emptyDB "rfrsh_x" 0 "r2" "rfrsh_y" true true (by decide)⟩

/-- C8.  A mutating series request by an authenticated user against a series
id that does not exist, and the same request against a series that exists but
is owned by a different user, produce the identical observable response —
status 404, body "Series not found or access denied" — and neither mutates
the store, so the response does not reveal whether the series exists. -/
theorem updateSeries_notfound_and_forbidden_same_response
    (db : DB) (uid sidMissing sidOther : String) (req : UpdateSeriesRequest)
    (hmissing : ∀ s ∈ db.series, s.id ≠ sidMissing)
    (_hexists : ∃ s ∈ db.series, s.id = sidOther)
    (hnotowned : ∀ s ∈ db.series, s.id = sidOther →
      ∀ cp ∈ db.profiles, cp.id = s.creatorID → cp.userID ≠ uid) :
    UpdateSeries db sidMissing uid req = (.fail 404 "Series not found or access denied", db) ∧
    UpdateSeries db sidOther uid req = (.fail 404 "Series not found or access denied", db) := by
  have h1 : findOwnedSeries db sidMissing uid = none := by
    unfold findOwnedSeries
    rw [List.find?_eq_none]
    intro s hs hcon
    simp only [Bool.and_eq_true, beq_iff_eq] at hcon
    exact hmissing s hs hcon.1
  have h2 : findOwnedSeries db sidOther uid = none := by
    unfold findOwnedSeries
    rw [List.find?_eq_none]
    intro s hs hcon
    simp only [Bool.and_eq_true, beq_iff_eq, List.any_eq_true] at hcon
    obtain ⟨hid, cp, hcp, hcpid, hcpuid⟩ := hcon
    exact hnotowned s hs hid cp hcp hcpid hcpuid
  constructor
  · unfold UpdateSeries
    rw [h1]
  · unfold UpdateSeries
    rw [h2]

/-- C8 witness: in the concrete content store, user "user-2" (not the owner
of series "s1") gets the same 404 response for the nonexistent id "nope" and
for the existing, foreign-owned id "s1". -/
theorem updateSeries_notfound_and_forbidden_same_response_witness :
    UpdateSeries contentDB "nope" "user-2" req0 = (.fail 404 "Series not found or access denied", contentDB) ∧
    UpdateSeries contentDB "s1" "user-2" req0 = (.fail 404 "Series not found or access denied", contentDB) :=
  updateSeries_notfound_and_forbidden_same_response contentDB "user-2" "nope" "s1" req0
    (by decide) (by decide) (by decide)

/-- C2 amended.  `Service.VerifyToken` returns claims exactly when the token
asserts an HMAC-family algorithm (HS256, HS384 or HS512 — the family-level
check, not a pin to the HS256 the service signs with), its signature is the
MAC of its own payload under the configured secret with its asserted
algorithm, and `nbf ≤ now < exp`.  Consequently a token asserting a
non-HMAC algorithm (none, RS256) never yields claims, and neither does a
token whose payload or signature was altered after signing — but a token
asserting HS384/HS512 with a correct MAC under the secret is accepted. -/
theorem verifyToken_characterization
    (cfg : AuthConfig) (now : Int) (t : SignedToken) (c : TokenClaims) :
    VerifyToken cfg now t = some c ↔
      t.alg.isHMAC = true ∧ t.sig = Sig.mac t.alg cfg.jwtSecret t.claims ∧
      t.claims.nbf ≤ now ∧ now < t.claims.exp ∧ c = t.claims := by
  unfold VerifyToken
  split_ifs with h1 h2 h3
  · simp [h1]
  · rw [Bool.not_eq_false] at h1
    simp [h1, h2, h3.1, h3.2, eq_comm]
  · rw [Bool.not_eq_false] at h1
    simp only [h1, h2, true_and]
    constructor
    · intro hcon
      simp at hcon
    · intro hcon
      exact absurd ⟨hcon.1, hcon.2.1⟩ h3
  · simp [h2]

/-- C5 amended.  The mark-used and revoke writes the handlers issue are
unconditional single-row updates keyed by primary key: they coincide with the
compare-and-set writes the spec prescribes only on stores where every
targeted row still has its flag down, and they still match (succeed on) a row
whose flag is already set — where a conditional false→true write would match
nothing — so the storage layer provides no at-most-once guarantee by itself. -/
theorem flagUpdates_unconditional_semantics (db : DB) (rowID : String) :
    ((∀ t ∈ db.otps, t.id = rowID → t.used = false) →
      markOTPUsed db rowID = markOTPUsedCAS db rowID) ∧
    ((∃ t ∈ db.otps, t.id = rowID ∧ t.used = true) → 0 < (markOTPUsed db rowID).2) ∧
    ((∀ t ∈ db.refreshTokens, t.id = rowID → t.revoked = false) →
      revokeRefreshToken db rowID = revokeRefreshTokenCAS db rowID) ∧
    ((∃ t ∈ db.refreshTokens, t.id = rowID ∧ t.revoked = true) → 0 < (revokeRefreshToken db rowID).2) := by
  refine ⟨?_, ?_, ?_, ?_⟩
  · intro h
    unfold markOTPUsed markOTPUsedCAS
    have hpred : ∀ t ∈ db.otps, ((t.id == rowID) = true ↔ (t.id == rowID && t.used == false) = true) := by
      intro t ht
      simp only [Bool.and_eq_true, beq_iff_eq, iff_self_and]
      intro hid
      simp [h t ht hid]
    have hmap : ∀ t ∈ db.otps,
        (if t.id == rowID then { t with used := true } else t) =
        (if t.id == rowID && t.used == false then { t with used := true } else t) := by
      intro t ht
      by_cases hid : (t.id == rowID) = true
      · rw [if_pos hid, if_pos ((hpred t ht).mp hid)]
      · rw [if_neg hid, if_neg (by rw [← hpred t ht]; exact hid)]
    rw [Prod.ext_iff]
    exact ⟨by simp only [List.map_congr_left hmap], List.countP_congr hpred⟩
  · intro ⟨t, ht, hid, _⟩
    unfold markOTPUsed
    exact List.countP_pos_iff.mpr ⟨t, ht, by simp [hid]⟩
  · intro h
    unfold revokeRefreshToken revokeRefreshTokenCAS
    have hpred : ∀ t ∈ db.refreshTokens, ((t.id == rowID) = true ↔ (t.id == rowID && t.revoked == false) = true) := by
      intro t ht
      simp only [Bool.and_eq_true, beq_iff_eq, iff_self_and]
      intro hid
      simp [h t ht hid]
    have hmap : ∀ t ∈ db.refreshTokens,
        (if t.id == rowID then { t with revoked := true } else t) =
        (if t.id == rowID && t.revoked == false then { t with revoked := true } else t) := by
      intro t ht
      by_cases hid : (t.id == rowID) = true
      · rw [if_pos hid, if_pos ((hpred t ht).mp hid)]
      · rw [if_neg hid, if_neg (by rw [← hpred t ht]; exact hid)]
    rw [Prod.ext_iff]
    exact ⟨by simp only [List.map_congr_left hmap], List.countP_congr hpred⟩
  · intro ⟨t, ht, hid, _⟩
    unfold revokeRefreshToken
    exact List.countP_pos_iff.mpr ⟨t, ht, by simp [hid]⟩

/-- C5 amended witness: on the fresh-flag store the unconditional and
conditional writes agree; on the consumed store the unconditional writes
still match the already-true rows. -/
theorem flagUpdates_unconditional_semantics_witness :
    markOTPUsed freshFlagsDB "o1" = markOTPUsedCAS freshFlagsDB "o1" ∧
    0 < (markOTPUsed consumedDB "o1").2 ∧
    revokeRefreshToken freshFlagsDB "r1" = revokeRefreshTokenCAS freshFlagsDB "r1" ∧
    0 < (revokeRefreshToken consumedDB "r1").2 :=
  ⟨(flagUpdates_unconditional_semantics freshFlagsDB "o1").1 (by decide),
   (flagUpdates_unconditional_semantics consumedDB "o1").2.1 ⟨usedOtpRow, by decide, by decide, by decide⟩,
   (flagUpdates_unconditional_semantics freshFlagsDB "r1").2.2.1 (by decide),
   (flagUpdates_unconditional_semantics consumedDB "r1").2.2.2 ⟨revokedRtRow, by decide, by decide, by decide⟩⟩

/-- C6 amended.  The dedicated status endpoints first normalize the request
value — ASCII lowercasing plus the alias `publish` → `published` — and then
enforce the allow-lists: an episode status update succeeds exactly when the
normalized value is one of pending_upload/queued_transcode/ready/published,
a series status update exactly when it is draft/published; otherwise the
request fails with 400 "invalid status" and the store (hence the stored
status) is unchanged.  The generic series-update endpoint is not covered: it
copies a supplied status with no validation (see `applySeriesUpdates`). -/
theorem statusUpdate_allowlist_after_normalization :
    (∀ (db : DB) (epID uid reqStatus : String) (now : Int) (ep : Episode),
      findOwnedEpisode db epID uid = some ep → reqStatus ≠ "" →
      (episodeStatusAllowed (normalizeStatus reqStatus) = false →
        UpdateEpisodeStatus db epID uid reqStatus now = (.fail 400 "invalid status", db)) ∧
      (episodeStatusAllowed (normalizeStatus reqStatus) = true →
        (UpdateEpisodeStatus db epID uid reqStatus now).1
          = .message 200 "Episode status updated successfully" ∧
        ∀ e ∈ (UpdateEpisodeStatus db epID uid reqStatus now).2.episodes,
          e.id = ep.id → e.status = normalizeStatus reqStatus)) ∧
    (∀ (db : DB) (sid uid reqStatus : String) (s : Series),
      findOwnedSeries db sid uid = some s → reqStatus ≠ "" →
      (seriesStatusAllowed (normalizeStatus reqStatus) = false →
        UpdateSeriesStatus db sid uid reqStatus = (.fail 400 "invalid status", db)) ∧
      (seriesStatusAllowed (normalizeStatus reqStatus) = true →
        (UpdateSeriesStatus db sid uid reqStatus).1
          = .message 200 "Series status updated successfully" ∧
        ∀ t ∈ (UpdateSeriesStatus db sid uid reqStatus).2.series,
          t.id = s.id → t.status = normalizeStatus reqStatus)) := by
  constructor
  · intro db epID uid reqStatus now ep hfind hne
    constructor
    · intro hbad
      unfold UpdateEpisodeStatus
      simp only [hfind, if_neg hne]
      rw [if_pos hbad]
    · intro hok
      unfold UpdateEpisodeStatus
      simp only [hfind, if_neg hne]
      rw [if_neg (by simp [hok])]
      refine ⟨rfl, ?_⟩
      intro e he hid
      simp only [List.mem_map] at he
      obtain ⟨t, ht, rfl⟩ := he
      by_cases hti : (t.id == ep.id) = true
      · simp [hti]
      · rw [if_neg hti] at hid ⊢
        exact absurd (beq_iff_eq.mpr hid) hti
  · intro db sid uid reqStatus s hfind hne
    constructor
    · intro hbad
      unfold UpdateSeriesStatus
      simp only [hfind, if_neg hne]
      rw [if_pos hbad]
    · intro hok
      unfold UpdateSeriesStatus
      simp only [hfind, if_neg hne]
      rw [if_neg (by simp [hok])]
      refine ⟨rfl, ?_⟩
      intro t ht hid
      simp only [List.mem_map] at ht
      obtain ⟨r, hr, rfl⟩ := ht
      by_cases hri : (r.id == s.id) = true
      · simp [hri]
      · rw [if_neg hri] at hid ⊢
        exact absurd (beq_iff_eq.mpr hid) hri

/-- C6 amended witness: in the concrete content store, the episode endpoint
rejects "bogus" with a 400 and no store change, and the series endpoint
accepts "Published" (normalized to `published`). -/
theorem statusUpdate_allowlist_after_normalization_witness :
    UpdateEpisodeStatus contentDB "e1" "user-1" "bogus" 0 = (.fail 400 "invalid status", contentDB) ∧
    (UpdateSeriesStatus contentDB "s1" "user-1" "Published").1
      = .message 200 "Series status updated successfully" := by
  have h := statusUpdate_allowlist_after_normalization
  exact ⟨(h.1 contentDB "e1" "user-1" "bogus" 0 episodeE1 (by decide) (by decide)).1 (by decide),
         ((h.2 contentDB "s1" "user-1" "Published" seriesS1 (by decide) (by decide)).2 (by decide)).1⟩

/-- C9 amended.  The phone-variant access token is signed HS256 with the
process-wide secret and carries exactly user_id, phone, iat = nbf = issuance
time and exp = issuance + 1 hour — with no role (and no email) claim; it
validates at issuance time under the request-gate middleware keyed by the
same secret.  The email-variant token carries user_id, email, role, iat,
nbf, and exp = issuance + the configured expiry, signed HS256 with the
configured secret. -/
theorem accessToken_claims_characterization
    (user : User) (cfg : AuthConfig) (iu : InternalUser) (now : Int) :
    (generateAccessToken user now).alg = Alg.HS256 ∧
    (generateAccessToken user now).sig
      = Sig.mac Alg.HS256 jwtSecret (generateAccessToken user now).claims ∧
    (generateAccessToken user now).claims
      = { userID := user.id, phone := some user.phone, email := none, role := none,
          exp := now + 3600, iat := now, nbf := now } ∧
    authMiddlewareVerify now (generateAccessToken user now)
      = some (generateAccessToken user now).claims ∧
    (generateTokensInternal cfg iu now).claims
      = { userID := iu.id, phone := none, email := some iu.email, role := some iu.role,
          exp := now + cfg.accessTokenExpiry, iat := now, nbf := now } ∧
    (generateTokensInternal cfg iu now).sig
      = Sig.mac Alg.HS256 cfg.jwtSecret (generateTokensInternal cfg iu now).claims := by
  refine ⟨rfl, rfl, rfl, ?_, rfl, rfl⟩
  unfold authMiddlewareVerify generateAccessToken
  simp only [Alg.isHMAC, tokenExpiration, Bool.true_eq_false, if_false, if_pos rfl]
  have hcond : now ≤ now ∧ now < now + 3600 := ⟨le_refl now, by omega⟩
  rw [if_pos hcond]
  simp

/-- Helper: a verification attempt whose lookup matches no transaction fails
with the 401 "Invalid OTP" and leaves the store untouched. -/
theorem verifyOTP_no_match (db : DB) (phone code : String) (now : Int)
    (a b c : String) (f₁ f₂ f₃ : Bool)
    (hphone : phone ≠ "") (hcode : code ≠ "")
    (hnone : findOTP db phone code = none) :
    VerifyOTP db phone code now a b c f₁ f₂ f₃ = (.fail 401 "Invalid OTP", db) := by
  unfold VerifyOTP
  rw [if_neg (by tauto)]
  simp only [hnone]

/-- Helper: once every transaction matching (phone, code, unused) has been
marked used, the OTP lookup finds nothing. -/
theorem findOTP_after_mark (db db' : DB) (phone code : String) (tx : OTPTransaction)
    (huniq : ∀ t ∈ db.otps, t.phone = phone → t.otp = code → t.used = false → t.id = tx.id)
    (hotps : db'.otps = db.otps.map (fun t => if t.id == tx.id then { t with used := true } else t)) :
    findOTP db' phone code = none := by
  unfold findOTP
  rw [hotps, List.find?_eq_none]
  intro x hx hcon
  simp only [List.mem_map] at hx
  obtain ⟨t, ht, rfl⟩ := hx
  by_cases hid : (t.id == tx.id) = true
  · rw [if_pos hid] at hcon
    simp at hcon
  · rw [if_neg hid] at hcon
    simp only [Bool.and_eq_true, beq_iff_eq] at hcon
    exact hid (beq_iff_eq.mpr (huniq t ht hcon.1.1 hcon.1.2 hcon.2))

/-- C4.  With a correct, unused, unexpired code whose matching transaction is
unique, the first `VerifyOTP` call succeeds — issues a token pair, leaves a
user with that phone in the store, and marks the matched transaction used —
and any subsequent call with the same (phone, code), at any later time and
with any fresh identifiers, fails with 401 "Invalid OTP" without touching the
store: consumption is exactly-once in sequential execution. -/
theorem verifyOTP_consumes_exactly_once
    (db : DB) (phone code : String) (now now₂ : Int)
    (uid rid rtok uid₂ rid₂ rtok₂ : String) (tx : OTPTransaction)
    (hfind : findOTP db phone code = some tx)
    (hexp : now < tx.expiresAt)
    (huniq : ∀ t ∈ db.otps, t.phone = phone → t.otp = code → t.used = false → t.id = tx.id)
    (hphone : phone ≠ "") (hcode : code ≠ "") :
    (∃ resp, (VerifyOTP db phone code now uid rid rtok true true true).1 = HResp.tokens resp) ∧
    (∃ u ∈ (VerifyOTP db phone code now uid rid rtok true true true).2.users, u.phone = phone) ∧
    (∀ t ∈ (VerifyOTP db phone code now uid rid rtok true true true).2.otps,
      t.id = tx.id → t.used = true) ∧
    VerifyOTP (VerifyOTP db phone code now uid rid rtok true true true).2
        phone code now₂ uid₂ rid₂ rtok₂ true true true
      = (HResp.fail 401 "Invalid OTP", (VerifyOTP db phone code now uid rid rtok true true true).2) := by
  have hne : ¬(phone = "" ∨ code = "") := by tauto
  have hmarked : ∀ t ∈ db.otps.map (fun t => if t.id == tx.id then { t with used := true } else t),
      t.id = tx.id → t.used = true := by
    intro t ht hid
    simp only [List.mem_map] at ht
    obtain ⟨t₀, ht₀, rfl⟩ := ht
    by_cases h : (t₀.id == tx.id) = true
    · simp [h]
    · rw [if_neg h] at hid ⊢
      exact absurd (beq_iff_eq.mpr hid) h
  cases hu : db.users.find? (fun u => u.phone == phone) with
  | some user =>
    have hcall : VerifyOTP db phone code now uid rid rtok true true true =
        (.tokens { accessToken := generateAccessToken user now,
                   refreshToken := rtok, expiresIn := tokenExpiration },
         { db with
           otps := db.otps.map (fun t => if t.id == tx.id then { t with used := true } else t),
           refreshTokens := db.refreshTokens ++
             [{ id := rid, token := rtok, userID := user.id,
                expiresAt := now + refreshTokenExpiration, revoked := false }] }) := by
      unfold VerifyOTP markOTPUsed
      rw [if_neg hne]
      simp only [hfind]
      rw [hu]
      simp
    rw [hcall]
    refine ⟨⟨_, rfl⟩, ?_, hmarked, ?_⟩
    · have hp := List.find?_some hu
      simp only [beq_iff_eq] at hp
      exact ⟨user, List.mem_of_find?_eq_some hu, hp⟩
    · exact verifyOTP_no_match _ phone code now₂ uid₂ rid₂ rtok₂ true true true hphone hcode
        (findOTP_after_mark db _ phone code tx huniq rfl)
  | none =>
    have hcall : VerifyOTP db phone code now uid rid rtok true true true =
        (.tokens { accessToken := generateAccessToken { id := uid, phone := phone } now,
                   refreshToken := rtok, expiresIn := tokenExpiration },
         { db with
           otps := db.otps.map (fun t => if t.id == tx.id then { t with used := true } else t),
           users := db.users ++ [{ id := uid, phone := phone }],
           refreshTokens := db.refreshTokens ++
             [{ id := rid, token := rtok, userID := uid,
                expiresAt := now + refreshTokenExpiration, revoked := false }] }) := by
      unfold VerifyOTP markOTPUsed
      rw [if_neg hne]
      simp only [hfind]
      rw [hu]
      simp
    rw [hcall]
    refine ⟨⟨_, rfl⟩, ?_, hmarked, ?_⟩
    · exact ⟨{ id := uid, phone := phone }, by simp, rfl⟩
    · exact verifyOTP_no_match _ phone code now₂ uid₂ rid₂ rtok₂ true true true hphone hcode
        (findOTP_after_mark db _ phone code tx huniq rfl)

/-- C4 witness: in a store holding one unused transaction expiring at epoch
second 1000, verifying at second 500 succeeds and the repeat attempt fails
with 401 "Invalid OTP". -/
theorem verifyOTP_consumes_exactly_once_witness :
    (∃ resp, (VerifyOTP freshFlagsDB "+15550001111" "123456" 500 "user-1" "r2" "rfrsh_2" true true true).1
      = HResp.tokens resp) ∧
    VerifyOTP (VerifyOTP freshFlagsDB "+15550001111" "123456" 500 "user-1" "r2" "rfrsh_2" true true true).2
        "+15550001111" "123456" 600 "user-9" "r9" "rfrsh_9" true true true
      = (HResp.fail 401 "Invalid OTP",
         (VerifyOTP freshFlagsDB "+15550001111" "123456" 500 "user-1" "r2" "rfrsh_2" true true true).2) := by
  have h := verifyOTP_consumes_exactly_once freshFlagsDB "+15550001111" "123456" 500 600
    "user-1" "r2" "rfrsh_2" "user-9" "r9" "rfrsh_9" { usedOtpRow with used := false }
    (by decide) (by decide) (by decide) (by decide) (by decide)
  exact ⟨h.1, h.2.2.2⟩

/-- Helper: a refresh attempt whose lookup matches no live stored token fails
with the 401 "Invalid refresh token" and leaves the store untouched. -/
theorem refresh_no_match (db : DB) (tok : String) (now : Int)
    (a b : String) (f₁ f₂ : Bool)
    (htok : tok ≠ "")
    (hnone : findRefreshToken db tok now = none) :
    RefreshTokenCall db tok now a b f₁ f₂ = (.fail 401 "Invalid refresh token", db) := by
  unfold RefreshTokenCall
  rw [if_neg htok]
  simp only [hnone]

/-- C3.  A successful `RefreshTokenPair` call returns a fresh token pair and
rotates: afterwards the presented token string — unique in the store, and
distinct from the newly minted token — never validates again; a second call
with the same string, at any time, fails with 401 "Invalid refresh token" and
leaves the store unchanged. -/
theorem refreshTokenPair_rotation
    (db : DB) (tok : String) (now now₂ : Int) (rid rtok rid₂ rtok₂ : String)
    (rt : RefreshTokenRec) (user : User)
    (hfind : findRefreshToken db tok now = some rt)
    (huser : db.users.find? (fun u => u.id == rt.userID) = some user)
    (huniq : ∀ t ∈ db.refreshTokens, t.token = tok → t.id = rt.id)
    (hfresh : rtok ≠ tok)
    (htok : tok ≠ "") :
    (∃ resp, (RefreshTokenCall db tok now rid rtok true true).1 = HResp.tokens resp) ∧
    RefreshTokenCall (RefreshTokenCall db tok now rid rtok true true).2 tok now₂ rid₂ rtok₂ true true
      = (HResp.fail 401 "Invalid refresh token", (RefreshTokenCall db tok now rid rtok true true).2) := by
  have hcall : RefreshTokenCall db tok now rid rtok true true =
      (.tokens { accessToken := generateAccessToken user now,
                 refreshToken := rtok, expiresIn := tokenExpiration },
       { db with
         refreshTokens := (db.refreshTokens ++
           [({ id := rid, token := rtok, userID := user.id,
               expiresAt := now + refreshTokenExpiration, revoked := false } : RefreshTokenRec)]).map
           (fun t => if t.id == rt.id then { t with revoked := true } else t) }) := by
    unfold RefreshTokenCall revokeRefreshToken
    rw [if_neg htok]
    simp only [hfind]
    rw [huser]
    simp
  rw [hcall]
  refine ⟨⟨_, rfl⟩, ?_⟩
  refine refresh_no_match _ tok now₂ rid₂ rtok₂ true true htok ?_
  unfold findRefreshToken
  rw [List.find?_eq_none]
  intro x hx hcon
  simp only [List.mem_map, List.mem_append, List.mem_singleton] at hx
  obtain ⟨t, ht, rfl⟩ := hx
  split_ifs at hcon with hid
  · simp at hcon
  · simp only [Bool.and_eq_true, beq_iff_eq] at hcon
    rcases ht with ht | rfl
    · exact hid (beq_iff_eq.mpr (huniq t ht hcon.1.1))
    · exact hfresh hcon.1.1

/-- C3 witness: in a store with one live refresh token, refreshing at epoch
second 1000 succeeds and presenting the same token again fails with 401
"Invalid refresh token". -/
theorem refreshTokenPair_rotation_witness :
    (∃ resp, (RefreshTokenCall refreshDB "rfrsh_old" 1000 "r2" "rfrsh_new" true true).1
      = HResp.tokens resp) ∧
    RefreshTokenCall (RefreshTokenCall refreshDB "rfrsh_old" 1000 "r2" "rfrsh_new" true true).2
        "rfrsh_old" 1000 "r9" "rfrsh_9" true true
      = (HResp.fail 401 "Invalid refresh token",
         (RefreshTokenCall refreshDB "rfrsh_old" 1000 "r2" "rfrsh_new" true true).2) :=
  refreshTokenPair_rotation refreshDB "rfrsh_old" 1000 1000 "r2" "rfrsh_new" "r9" "rfrsh_9"
    rtRowActive u0 (by decide) (by decide) (by decide) (by decide) (by decide)

/-- C7.  Episode numbers are unique within a series: creating an episode
whose number is already held in the same series fails with a 409 conflict and
creates nothing; creating with a number not held in the target series — even
if held in another series — inserts the episode; updating an episode to a
number held by a different row of the same series fails with the 409 and
changes nothing; updating to a number no other row of the series holds (the
row being updated is excluded from the check) succeeds and stores the new
number. -/
theorem episodeNumber_unique_within_series :
    (∀ (db : DB) (sid uid : String) (req : CreateEpisodeRequest) (nid : String) (s : Series),
      findOwnedSeries db sid uid = some s →
      req.title ≠ "" → 0 < req.episodeNumber → 0 < req.durationSeconds →
      (∃ e ∈ db.episodes, e.seriesID = sid ∧ e.episodeNumber = req.episodeNumber) →
      CreateEpisode db sid uid req nid
        = (.fail 409 "Episode number already exists for this series", db)) ∧
    (∀ (db : DB) (sid uid : String) (req : CreateEpisodeRequest) (nid : String) (s : Series),
      findOwnedSeries db sid uid = some s →
      req.title ≠ "" → 0 < req.episodeNumber → 0 < req.durationSeconds →
      (∀ e ∈ db.episodes, e.seriesID = sid → e.episodeNumber ≠ req.episodeNumber) →
      CreateEpisode db sid uid req nid
        = (.createdEpisode
            { id := nid, seriesID := sid, title := req.title,
              episodeNumber := req.episodeNumber, durationSeconds := req.durationSeconds,
              status := "pending_upload", publishedAt := none, thumbURL := none },
           { db with
             episodes := db.episodes ++
               [{ id := nid, seriesID := sid, title := req.title,
                  episodeNumber := req.episodeNumber, durationSeconds := req.durationSeconds,
                  status := "pending_upload", publishedAt := none, thumbURL := none }] })) ∧
    (∀ (db : DB) (epID uid : String) (n : Int) (ep : Episode),
      findOwnedEpisode db epID uid = some ep → 0 < n →
      (∃ e ∈ db.episodes, e.id ≠ ep.id ∧ e.seriesID = ep.seriesID ∧ e.episodeNumber = n) →
      UpdateEpisode db epID uid { title := none, episodeNumber := some n, durationSeconds := none }
        = (.fail 409 "Episode number already exists for this series", db)) ∧
    (∀ (db : DB) (epID uid : String) (n : Int) (ep : Episode),
      findOwnedEpisode db epID uid = some ep → 0 < n →
      (∀ e ∈ db.episodes, e.seriesID = ep.seriesID → e.id ≠ ep.id → e.episodeNumber ≠ n) →
      (UpdateEpisode db epID uid
          { title := none, episodeNumber := some n, durationSeconds := none }).1
        = .message 200 "Episode updated successfully" ∧
      ∀ e ∈ (UpdateEpisode db epID uid
          { title := none, episodeNumber := some n, durationSeconds := none }).2.episodes,
        e.id = ep.id → e.episodeNumber = n) := by
  refine ⟨?_, ?_, ?_, ?_⟩
  · intro db sid uid req nid s hs ht hn hd hdup
    have hval : ¬(req.title = "" ∨ req.episodeNumber ≤ 0 ∨ req.durationSeconds ≤ 0) := by
      push_neg
      exact ⟨ht, by omega, by omega⟩
    unfold CreateEpisode
    rw [if_neg hval]
    simp only [hs]
    obtain ⟨e, he, h1, h2⟩ := hdup
    cases heq : db.episodes.find? (fun e => e.seriesID == sid && e.episodeNumber == req.episodeNumber) with
    | none =>
      rw [List.find?_eq_none] at heq
      exact absurd (by simp [h1, h2]) (heq e he)
    | some e2 => simp [heq]
  · intro db sid uid req nid s hs ht hn hd hnodup
    have hval : ¬(req.title = "" ∨ req.episodeNumber ≤ 0 ∨ req.durationSeconds ≤ 0) := by
      push_neg
      exact ⟨ht, by omega, by omega⟩
    have hnone : db.episodes.find? (fun e => e.seriesID == sid && e.episodeNumber == req.episodeNumber) = none := by
      rw [List.find?_eq_none]
      intro e he hcon
      simp only [Bool.and_eq_true, beq_iff_eq] at hcon
      exact hnodup e he hcon.1 hcon.2
    unfold CreateEpisode
    rw [if_neg hval]
    simp only [hs, hnone]
  · intro db epID uid n ep hep hn hdup
    unfold UpdateEpisode
    simp only [hep]
    unfold updateEpisodeNumberCheck
    dsimp only
    rw [if_neg (by omega : ¬ n ≤ 0)]
    have hpos : 0 < countOtherEpisodes db ep n := by
      unfold countOtherEpisodes
      rw [List.countP_pos_iff]
      obtain ⟨e, he, hne, hsid, hnum⟩ := hdup
      exact ⟨e, he, by simp [hsid, hnum, bne_iff_ne, hne]⟩
    rw [if_pos hpos]
  · intro db epID uid n ep hep hn hnodup
    unfold UpdateEpisode
    simp only [hep]
    unfold updateEpisodeNumberCheck
    dsimp only
    rw [if_neg (by omega : ¬ n ≤ 0)]
    have hzero : countOtherEpisodes db ep n = 0 := by
      unfold countOtherEpisodes
      rw [List.countP_eq_zero]
      intro e he hcon
      simp only [Bool.and_eq_true, beq_iff_eq, bne_iff_ne] at hcon
      exact hnodup e he hcon.1.1 hcon.2 hcon.1.2
    rw [if_neg (by simp [hzero])]
    unfold updateEpisodeApply
    rw [if_neg (by simp)]
    refine ⟨rfl, ?_⟩
    intro e he hid
    simp only [List.mem_map] at he
    obtain ⟨t, ht, rfl⟩ := he
    by_cases hti : (t.id == ep.id) = true
    · simp [hti, applyEpisodeUpdates]
    · rw [if_neg hti] at hid ⊢
      exact absurd (beq_iff_eq.mpr hid) hti

/-- C7 witness: in the two-series store, re-using number 1 inside series "s1"
conflicts with a 409 (create and update alike), number 1 in series "s2" is
accepted, and moving episode "e2" to the free number 3 succeeds. -/
theorem episodeNumber_unique_within_series_witness :
    CreateEpisode contentDB2 "s1" "user-1"
        { title := "EpX", episodeNumber := 1, durationSeconds := 60 } "e9"
      = (.fail 409 "Episode number already exists for this series", contentDB2) ∧
    (CreateEpisode contentDB2 "s2" "user-1"
        { title := "EpX", episodeNumber := 1, durationSeconds := 60 } "e9").1
      = .createdEpisode { id := "e9", seriesID := "s2", title := "EpX", episodeNumber := 1,
                          durationSeconds := 60, status := "pending_upload",
                          publishedAt := none, thumbURL := none } ∧
    UpdateEpisode contentDB2 "e2" "user-1"
        { title := none, episodeNumber := some 1, durationSeconds := none }
      = (.fail 409 "Episode number already exists for this series", contentDB2) ∧
    (UpdateEpisode contentDB2 "e2" "user-1"
        { title := none, episodeNumber := some 3, durationSeconds := none }).1
      = .message 200 "Episode updated successfully" := by
  have h := episodeNumber_unique_within_series
  refine ⟨h.1 contentDB2 "s1" "user-1" _ "e9" seriesS1 (by decide) (by decide) (by decide)
            (by decide) ⟨episodeE1, by decide, by decide, by decide⟩, ?_, ?_, ?_⟩
  · rw [h.2.1 contentDB2 "s2" "user-1" _ "e9" seriesS2 (by decide) (by decide) (by decide)
          (by decide) (by decide)]
  · exact h.2.2.1 contentDB2 "e2" "user-1" 1 episodeE2 (by decide) (by decide)
      ⟨episodeE1, by decide, by decide, by decide, by decide⟩
  · exact (h.2.2.2 contentDB2 "e2" "user-1" 3 episodeE2 (by decide) (by decide) (by decide)).1

end Streamshort
